import Mathlib

/-!
Shallow embedding of the PolyChordLite Python/C bridge module
(src/_PyPolyChord.cpp) and proofs about its behaviour.

Modelling conventions:
* C doubles and CPython float values are modelled as rationals (`Rat`);
  every operation the module performs on them is a pure copy, so the model
  is exact.
* A native numeric buffer (`double*`) is modelled as a total function
  `Nat -> Rat`: indices beyond the declared extent of a buffer stand for
  whatever memory lies behind it, which lets out-of-extent writes and
  untouched tails be stated directly.
* A CPython object is modelled by the inductive `PyObj`; the NULL pointer
  returned by a raising call is modelled by `Option.none` at the call
  sites that can receive it.
* Bridge functions that would dereference NULL (a fatal fault, since the
  surrounding engine has no error channel) return `Option.none`.
-/

set_option autoImplicit false

/-- Values of C `double` and of CPython `float` objects. -/
abbrev PyFloatVal := Rat

/-- A native `double*` buffer: total over `Nat`, indices past the declared
extent model the memory behind the buffer. -/
abbrev Buffer := Nat → Rat

/-- CPython objects, restricted to the shapes this module can meet. -/
inductive PyObj where
  | null : PyObj
  | pyNone : PyObj
  | float (v : Rat) : PyObj
  | list (xs : List PyObj) : PyObj
  | tuple (a b : PyObj) : PyObj

/-- PyList_New(n): a fresh list of n NULL slots. -/
def PyList_New (n : Nat) : List PyObj :=
  List.replicate n PyObj.null

/-- PyFloat_AsDouble restricted to our object shapes: a float converts to
its value; every other shape has no float conversion (CPython then raises
and returns the sentinel). -/
def pyFloatAsDouble : PyObj → Option Rat
  | PyObj.float v => some v
  | _ => none

/-- The value PyFloat_AsDouble actually hands back in C: the float value,
or the error sentinel -1.0 with a (never checked) CPython exception set. -/
def asDoubleValue (o : PyObj) : Rat :=
  (pyFloatAsDouble o).getD (-1)

/-- convert_list(double* array, PyObject* list), lines 31-34: for every
index i below PyList_Size(list), slot i becomes PyFloat_FromDouble(array[i]).
Every slot is overwritten, so the result depends only on the length. -/
def convert_list_toPy (array : Buffer) (list : List PyObj) : List PyObj :=
  (List.range list.length).map fun i => PyObj.float (array i)

/-- convert_list(PyObject* list, double* array), lines 37-40: for every
index i below PyList_Size(list), array[i] = PyFloat_AsDouble(list[i]).
On a non-list object PyList_Size reports -1 with an error set, so the
loop body never runs and the array is untouched. No length parameter and
no size check exist. -/
def convert_list_toC (list : PyObj) (array : Buffer) : Buffer :=
  match list with
  | PyObj.list xs =>
      fun j => if h : j < xs.length then asDoubleValue (xs.get ⟨j, h⟩) else array j
  | _ => array

/-- The PyList_New-then-convert_list composition both bridges use to turn
a native buffer of declared length n into a Python list. -/
def toContainer (array : Buffer) (n : Nat) : List PyObj :=
  convert_list_toPy array (PyList_New n)

/-- Shape of the registered likelihood callable: receives the two lists,
returns an object, or none when it raises (the C call returns NULL). -/
abbrev LikeFn := List PyObj → List PyObj → Option PyObj

/-- Shape of the registered prior callable. -/
abbrev PriorFn := List PyObj → Option PyObj

/-- loglikelihood(double* theta, int nDims, double* phi, int nDerived),
lines 45-67, parameterised by the value of the global python_loglikelihood
read at call time. It builds the two lists, calls the callable once, runs
PyFloat_AsDouble on the whole result and returns that number. No store
into theta or phi occurs anywhere in the function, so both buffers come
back unchanged. A raising callable yields NULL, after which Py_DECREF on
NULL is a fatal fault, modelled as none. -/
def loglikelihood (python_loglikelihood : LikeFn) (theta : Buffer) (nDims : Nat)
    (phi : Buffer) (nDerived : Nat) : Option (Rat × Buffer × Buffer) :=
  let list_theta := toContainer theta nDims
  let list_phi := toContainer phi nDerived
  match python_loglikelihood list_theta list_phi with
  | none => none
  | some pylogL => some (asDoubleValue pylogL, theta, phi)

/-- prior(double* cube, double* theta, int nDims), lines 71-86,
parameterised by the value of the global python_prior read at call time.
It builds the cube list, calls the callable once and copies the returned
object into theta with convert_list; cube is never stored to. A raising
callable yields NULL, after which PyList_Size dereferences NULL, a fatal
fault, modelled as none. -/
def prior (python_prior : PriorFn) (cube : Buffer) (theta : Buffer) (nDims : Nat) :
    Option (Buffer × Buffer) :=
  let list_cube := toContainer cube nDims
  match python_prior list_cube with
  | none => none
  | some list_theta => some (cube, convert_list_toC list_theta theta)

/-- The two process-wide callable slots, lines 43 and 69: the static
globals python_loglikelihood and python_prior, each NULL (none) until a
run binds it. -/
structure Registry where
  python_loglikelihood : Option LikeFn
  python_prior : Option PriorFn

/-- State of the globals at module load: both NULL. -/
def initRegistry : Registry :=
  { python_loglikelihood := none, python_prior := none }

/-- Accessor for the likelihood slot; none plays the role of the NotBound
failure of the specification (the C code reads the global directly, and a
NULL global would be a fatal fault inside PyObject_CallFunctionObjArgs). -/
def currentLikelihood (st : Registry) : Option LikeFn :=
  st.python_loglikelihood

/-- Accessor for the prior slot; none plays the role of NotBound. -/
def currentPrior (st : Registry) : Option PriorFn :=
  st.python_prior

/-- The values PyArg_ParseTuple extracts from the argument tuple, in the
order of the format string OOiiiiiididiiiiiiiiiiss, lines 92-115. -/
structure RunArgs where
  python_loglikelihood : LikeFn
  python_prior : PriorFn
  nDims : Int
  nDerived : Int
  nlive : Int
  num_repeats : Int
  do_clustering : Int
  feedback : Int
  precision_criterion : Rat
  max_ndead : Int
  boost_posterior : Rat
  posteriors : Int
  equals : Int
  cluster_posteriors : Int
  write_resume : Int
  write_paramnames : Int
  read_resume : Int
  write_stats : Int
  write_live : Int
  write_dead : Int
  update_files : Int
  base_dir : String
  file_root : String

/-- One invocation of polychord_c_interface, lines 119-142: the scalar and
string arguments in the exact order of the call. The first two arguments
of the real call are always the two fixed bridge functions loglikelihood
and prior, so they carry no information and are omitted from the record. -/
structure EngineCall where
  nlive : Int
  num_repeats : Int
  do_clustering : Int
  feedback : Int
  precision_criterion : Rat
  max_ndead : Int
  boost_posterior : Rat
  posteriors : Int
  equals : Int
  cluster_posteriors : Int
  write_resume : Int
  write_paramnames : Int
  read_resume : Int
  write_stats : Int
  write_live : Int
  write_dead : Int
  update_files : Int
  nDims : Int
  nDerived : Int
  base_dir : String
  file_root : String

/-- The engine invocation run_PyPolyChord builds from the parsed
arguments, field for field in the order of lines 119-142. -/
def engineCallOf (a : RunArgs) : EngineCall :=
  { nlive := a.nlive
    num_repeats := a.num_repeats
    do_clustering := a.do_clustering
    feedback := a.feedback
    precision_criterion := a.precision_criterion
    max_ndead := a.max_ndead
    boost_posterior := a.boost_posterior
    posteriors := a.posteriors
    equals := a.equals
    cluster_posteriors := a.cluster_posteriors
    write_resume := a.write_resume
    write_paramnames := a.write_paramnames
    read_resume := a.read_resume
    write_stats := a.write_stats
    write_live := a.write_live
    write_dead := a.write_dead
    update_files := a.update_files
    nDims := a.nDims
    nDerived := a.nDerived
    base_dir := a.base_dir
    file_root := a.file_root }

/-- run_PyPolyChord(self, args), lines 89-148, as a transition on the
registry state. The input is the outcome of PyArg_ParseTuple: none when
parsing fails (the function then returns NULL without reaching the engine;
the registry is modelled unchanged, and no theorem below relies on the
registry after a failed parse), some of the parsed values otherwise. On
success the two O arguments land in the globals, polychord_c_interface is
invoked once with the bridge function pointers and the scalars of
engineCallOf, and Py_None is returned. Nothing ever clears the globals. -/
def run_PyPolyChord (st : Registry) (parsed : Option RunArgs) :
    Registry × Option EngineCall × Option PyObj :=
  match parsed with
  | none => (st, none, none)
  | some a =>
      ({ python_loglikelihood := some a.python_loglikelihood,
         python_prior := some a.python_prior },
       some (engineCallOf a), some PyObj.pyNone)

/-!
Specification-side definition, used only to compare the converter the
specification describes with the converter the source implements.
-/

/-- Error taxonomy of the specification relevant to conversion. -/
inductive ConvErr where
  | LengthMismatch : ConvErr

/-- Modelled from the spec: fromContainer(container, buffer, length) as
section 4.1 words it, with its LengthMismatch outcome, which has no
counterpart in src. It checks size(container) = length and only then
writes the elements, in order, leaving the rest of the buffer. -/
def fromContainer_spec (container : List Rat) (buffer : Buffer) (length : Nat) :
    Except ConvErr Buffer :=
  if container.length = length then
    Except.ok (fun j => if h : j < container.length then container.get ⟨j, h⟩ else buffer j)
  else
    Except.error ConvErr.LengthMismatch

/-!
Concrete callables and buffers used by the closed theorems below.
-/

/-- Buffer holding 0.5 everywhere; its first nDims cells model the engine
handing the unit-cube point (0.5, 0.5, ...). -/
def bufHalf : Buffer := fun _ => 1/2

/-- Buffer holding 0 everywhere. -/
def bufZero : Buffer := fun _ => 0

/-- Buffer holding 1 everywhere. -/
def bufOne : Buffer := fun _ => 1

/-- A likelihood callable that follows the two-part contract of the
specification: it returns the pair (2.5, [7.0]), an updated
derived-parameter container of length nDerived = 1. -/
def fDerivedW : LikeFn := fun _ _ => some (PyObj.tuple (PyObj.float (5/2)) (PyObj.list [PyObj.float 7]))

/-- A likelihood callable whose result is a list, hence not convertible
to a float. -/
def fListW : LikeFn := fun _ _ => some (PyObj.list [])

/-- A likelihood callable returning the two-part result (3.5, [1.0]) with
a derived container of the declared length 1. -/
def fTupleW : LikeFn := fun _ _ => some (PyObj.tuple (PyObj.float (7/2)) (PyObj.list [PyObj.float 1]))

/-- A likelihood callable returning the two-part result (3.0, []) whose
derived container is one element short of the declared nDerived = 1. -/
def fShortDerived : LikeFn := fun _ _ => some (PyObj.tuple (PyObj.float 3) (PyObj.list []))

/-- A likelihood callable returning the bare scalar 1.0. -/
def fOne : LikeFn := fun _ _ => some (PyObj.float 1)

/-- A likelihood callable returning the bare scalar 2.0. -/
def fTwo : LikeFn := fun _ _ => some (PyObj.float 2)

/-- A likelihood callable returning the bare scalar 1.5. -/
def fScalarW : LikeFn := fun _ _ => some (PyObj.float (3/2))

/-- A prior callable returning the empty list. -/
def gOne : PriorFn := fun _ => some (PyObj.list [])

/-- A prior callable returning the singleton list [2.0]. -/
def gTwo : PriorFn := fun _ => some (PyObj.list [PyObj.float 2])

/-- A prior callable returning the singleton list [7.0] whatever its
input, shorter than the nDims = 3 it is used with. -/
def gShort : PriorFn := fun _ => some (PyObj.list [PyObj.float 7])

/-- The prior callable of the specification example: maps every cube
coordinate to ten times its value. -/
def priorTimesTen : PriorFn :=
  fun xs => some (PyObj.list (xs.map fun o => PyObj.float (asDoubleValue o * 10)))

/-- A run-argument record with typical values around the given callables,
dimensionalities and paths. -/
def sampleArgs (lf : LikeFn) (pf : PriorFn) (nDims nDerived : Int)
    (base_dir file_root : String) : RunArgs :=
  { python_loglikelihood := lf
    python_prior := pf
    nDims := nDims
    nDerived := nDerived
    nlive := 100
    num_repeats := 4
    do_clustering := 0
    feedback := 1
    precision_criterion := 1/1000
    max_ndead := -1
    boost_posterior := 0
    posteriors := 1
    equals := 1
    cluster_posteriors := 0
    write_resume := 1
    write_paramnames := 0
    read_resume := 0
    write_stats := 1
    write_live := 1
    write_dead := 1
    update_files := 1
    base_dir := base_dir
    file_root := file_root }

/-- Arguments of a first, well-formed run. -/
def argsFirst : RunArgs := sampleArgs fOne gOne 2 1 "chains" "test"

/-- Arguments of a second run attempted while the first is active. -/
def argsSecond : RunArgs := sampleArgs fTwo gTwo 2 1 "chains" "second"

/-- Arguments with a negative dimensionality, a negative derived count and
empty path strings. -/
def badArgs : RunArgs := sampleArgs fOne gOne (-1) (-1) "" ""

/-- A registry in the middle of an active run bound to fOne and gOne. -/
def regBound : Registry :=
  { python_loglikelihood := some fOne, python_prior := some gOne }

/-- Projection reading the first two cells of each buffer of a prior
bridge result, used to state closed facts about concrete runs. -/
def quadAt (p : Buffer × Buffer) : Rat × Rat × Rat × Rat :=
  (p.1 0, p.1 1, p.2 0, p.2 1)

/-!
Helper lemmas shared by the claim theorems.
-/

lemma asDoubleValue_float (v : Rat) : asDoubleValue (PyObj.float v) = v := rfl

lemma toContainer_length (array : Buffer) (n : Nat) : (toContainer array n).length = n := by
  simp [toContainer, convert_list_toPy, PyList_New]

lemma toContainer_get (array : Buffer) (n j : Nat) (h : j < (toContainer array n).length) :
    (toContainer array n).get ⟨j, h⟩ = PyObj.float (array j) := by
  have hj : j < n := by simpa [toContainer_length] using h
  simp only [toContainer, convert_list_toPy, PyList_New, List.get_eq_getElem]
  rw [List.getElem_map]
  congr 1
  simp [List.getElem_range]

lemma convert_toC_lt (xs : List PyObj) (array : Buffer) (j : Nat) (h : j < xs.length) :
    convert_list_toC (PyObj.list xs) array j = asDoubleValue (xs.get ⟨j, h⟩) := by
  simp only [convert_list_toC]
  rw [dif_pos h]

lemma convert_toC_ge (xs : List PyObj) (array : Buffer) (j : Nat) (h : xs.length ≤ j) :
    convert_list_toC (PyObj.list xs) array j = array j := by
  simp only [convert_list_toC]
  rw [dif_neg (Nat.not_lt.mpr h)]

lemma loglikelihood_of_ret (f : LikeFn) (theta : Buffer) (nDims : Nat)
    (phi : Buffer) (nDerived : Nat) (r : PyObj)
    (h : f (toContainer theta nDims) (toContainer phi nDerived) = some r) :
    loglikelihood f theta nDims phi nDerived = some (asDoubleValue r, theta, phi) := by
  simp only [loglikelihood, h]

lemma prior_of_ret (g : PriorFn) (cube theta : Buffer) (nDims : Nat) (r : PyObj)
    (h : g (toContainer cube nDims) = some r) :
    prior g cube theta nDims = some (cube, convert_list_toC r theta) := by
  simp only [prior, h]

/-!
Claim theorems.
-/

/-- C9: toContainer on a buffer of declared length n yields a container of
size exactly n, and the round trip fromContainer(toContainer(buf, n), buf2)
writes the original n values into buf2 exactly and in the same order,
leaving the rest of buf2 as it was. -/
theorem buffer_roundtrip (n : Nat) (buf buf2 : Buffer) :
    (toContainer buf n).length = n ∧
    ∀ j, convert_list_toC (PyObj.list (toContainer buf n)) buf2 j =
      if j < n then buf j else buf2 j := by
  refine ⟨toContainer_length buf n, fun j => ?_⟩
  by_cases h : j < n
  · rw [if_pos h]
    have hl : j < (toContainer buf n).length := by rw [toContainer_length]; exact h
    rw [convert_toC_lt _ _ _ hl, toContainer_get, asDoubleValue_float]
  · rw [if_neg h]
    exact convert_toC_ge _ _ _ (by rw [toContainer_length]; omega)

/-- C3 counterexample: on a container of size 1 against a declared length
of 2, the converter the specification describes signals LengthMismatch,
while the converter of the source writes the single element, silently
leaves cell 1 of the buffer as it was, and has no error outcome at all. -/
theorem fromContainer_no_signal_cex :
    fromContainer_spec [(3:Rat)] bufZero 2 = Except.error ConvErr.LengthMismatch ∧
    convert_list_toC (PyObj.list [PyObj.float 3]) bufZero 0 = 3 ∧
    convert_list_toC (PyObj.list [PyObj.float 3]) bufZero 1 = 0 :=
  ⟨rfl, rfl, rfl⟩

/-- C3 amended: convert_list from a Python list into a native array takes
no declared length and has no error outcome: it writes exactly
size(container) elements, in order, leaves every cell at or past
size(container) unchanged, and writes nothing at all when the object is
not a list. -/
theorem convert_list_write_extent (xs : List PyObj) (array : Buffer) :
    (∀ j (h : j < xs.length),
        convert_list_toC (PyObj.list xs) array j = asDoubleValue (xs.get ⟨j, h⟩)) ∧
    (∀ j, xs.length ≤ j → convert_list_toC (PyObj.list xs) array j = array j) ∧
    (∀ o : PyObj, (∀ ys, o ≠ PyObj.list ys) → ∀ j, convert_list_toC o array j = array j) := by
  refine ⟨fun j h => convert_toC_lt xs array j h,
    fun j h => convert_toC_ge xs array j h, fun o ho j => ?_⟩
  cases o with
  | list ys => exact absurd rfl (ho ys)
  | null => rfl
  | pyNone => rfl
  | float v => rfl
  | tuple a b => rfl

/-- C3 witness: the amended statement evaluated on the container [3.0]
over the zero buffer. -/
theorem convert_list_write_extent_witness :
    convert_list_toC (PyObj.list [PyObj.float 3]) bufZero 0 = asDoubleValue (PyObj.float 3) ∧
    convert_list_toC (PyObj.list [PyObj.float 3]) bufZero 1 = bufZero 1 := by
  have h := convert_list_write_extent [PyObj.float 3] bufZero
  exact ⟨h.1 0 (by decide), h.2.1 1 (by decide)⟩

/-- C10: when the prior callable returns a list ys, the prior bridge
writes exactly the theta cells 0 up to size(ys) - 1, in order, with no
comparison of size(ys) against nDims; the writes all land below nDims
exactly under the precondition size(ys) at most nDims, and a shorter ys
leaves the trailing theta cells unchanged; cube comes back untouched. -/
theorem prior_bridge_write_count (g : PriorFn) (cube theta : Buffer) (nDims : Nat)
    (ys : List PyObj) (h : g (toContainer cube nDims) = some (PyObj.list ys)) :
    prior g cube theta nDims = some (cube, convert_list_toC (PyObj.list ys) theta) ∧
    (∀ j (hj : j < ys.length),
        convert_list_toC (PyObj.list ys) theta j = asDoubleValue (ys.get ⟨j, hj⟩)) ∧
    (∀ j, ys.length ≤ j → convert_list_toC (PyObj.list ys) theta j = theta j) ∧
    (ys.length ≤ nDims → ∀ j, nDims ≤ j → convert_list_toC (PyObj.list ys) theta j = theta j) := by
  refine ⟨prior_of_ret g cube theta nDims _ h, fun j hj => convert_toC_lt _ _ _ hj,
    fun j hj => convert_toC_ge _ _ _ hj,
    fun hle j hj => convert_toC_ge _ _ _ (le_trans hle hj)⟩

/-- C10 witness: a prior returning the single-element list [7.0] under
nDims = 3 writes exactly cell 0 of theta and leaves cell 2 unchanged. -/
theorem prior_bridge_write_count_witness :
    prior gShort bufHalf bufZero 3 =
      some (bufHalf, convert_list_toC (PyObj.list [PyObj.float 7]) bufZero) ∧
    convert_list_toC (PyObj.list [PyObj.float 7]) bufZero 0 = asDoubleValue (PyObj.float 7) ∧
    convert_list_toC (PyObj.list [PyObj.float 7]) bufZero 2 = bufZero 2 := by
  have h := prior_bridge_write_count gShort bufHalf bufZero 3 [PyObj.float 7] rfl
  exact ⟨h.1, h.2.1 0 (by decide), h.2.2.1 2 (by decide)⟩

/-- C5: with a prior callable that maps the converted cube container to a
float list holding the values vs, of length nDims, the prior bridge
yields cube unchanged and theta holding the values vs, in order, with the
cells from size(vs) on unchanged. -/
theorem prior_bridge_correct (g : PriorFn) (cube theta : Buffer) (nDims : Nat)
    (vs : List Rat)
    (hg : g (toContainer cube nDims) = some (PyObj.list (vs.map PyObj.float)))
    (_hlen : vs.length = nDims) :
    prior g cube theta nDims =
      some (cube, fun j => if h : j < vs.length then vs.get ⟨j, h⟩ else theta j) := by
  rw [prior_of_ret g cube theta nDims _ hg]
  refine congrArg some (congrArg (Prod.mk cube) ?_)
  funext j
  by_cases h : j < vs.length
  · have hm : j < (vs.map PyObj.float).length := by
      simp only [List.length_map]; exact h
    rw [convert_toC_lt _ _ _ hm, dif_pos h]
    rw [List.get_eq_getElem, List.get_eq_getElem, List.getElem_map, asDoubleValue_float]
  · rw [convert_toC_ge _ _ _ (by simp only [List.length_map]; omega), dif_neg h]

/-- C5 auxiliary evaluation: the times-ten prior on the converted cube
(0.5, 0.5) returns the float list [5.0, 5.0]. -/
lemma priorTimesTen_eval :
    priorTimesTen (toContainer bufHalf 2) = some (PyObj.list ([(5:Rat), 5].map PyObj.float)) := by
  have h10 : ((1:Rat)/2) * 10 = 5 := by norm_num
  have hr : priorTimesTen (toContainer bufHalf 2)
      = some (PyObj.list [PyObj.float (1/2 * 10), PyObj.float (1/2 * 10)]) := rfl
  rw [hr, h10]
  rfl

/-- C5 witness: the specification example, cube = (0.5, 0.5) under the
times-ten prior: the bridge leaves cube at (0.5, 0.5) and theta reads
(5, 5). -/
theorem prior_bridge_correct_witness :
    prior priorTimesTen bufHalf bufZero 2 =
      some (bufHalf, fun j => if h : j < ([(5:Rat), 5]).length
        then ([(5:Rat), 5]).get ⟨j, h⟩ else bufZero j) ∧
    Option.map quadAt (prior priorTimesTen bufHalf bufZero 2) = some (1/2, 1/2, 5, 5) := by
  have h := prior_bridge_correct priorTimesTen bufHalf bufZero 2 [5, 5] priorTimesTen_eval rfl
  exact ⟨h, by rw [h]; rfl⟩

/-- C1: the likelihood bridge never writes the phi buffer. Evaluated at
theta = (0.5), phi = (0.0), nDims = nDerived = 1 and a callable that
returns the two-part result (2.5, [7.0]), an updated derived container of
length nDerived: the bridge returns with phi still holding 0.0 at cell 0,
not the updated value 7.0; theta is also unchanged, and the returned
scalar is the conversion sentinel -1, the tuple not being
float-convertible. -/
theorem likelihood_bridge_never_writes_phi :
    loglikelihood fDerivedW bufHalf 1 bufZero 1 = some (-1, bufHalf, bufZero) ∧
    Option.map (fun r => r.2.2 0) (loglikelihood fDerivedW bufHalf 1 bufZero 1) = some 0 ∧
    (0:Rat) ≠ 7 :=
  ⟨rfl, rfl, by norm_num⟩

/-- C2 counterexample: a callable returning the two-part result (3.0, [])
whose derived container has length 0 = nDerived - 1: the bridge neither
checks the length nor fails; it returns normally, handing the engine the
conversion sentinel -1 in place of a log-likelihood value, with the
CPython error indicator left set and never examined. -/
theorem likelihood_bridge_silent_default_cex :
    loglikelihood fShortDerived bufHalf 1 bufZero 1 = some (-1, bufHalf, bufZero) ∧
    (loglikelihood fShortDerived bufHalf 1 bufZero 1).isSome = true :=
  ⟨rfl, rfl⟩

/-- C2 amended: the bridge validates nothing: whenever the callable
returns any object r, the bridge returns normally with the
PyFloat_AsDouble value of r -- the sentinel -1, with a swallowed
exception, when r is not a float -- and the derived container inside r is
never length-checked nor written to phi; the only faulting path is a
raising callable, through Py_DECREF of NULL. -/
theorem likelihood_bridge_no_validation (f : LikeFn) (theta : Buffer) (nDims : Nat)
    (phi : Buffer) (nDerived : Nat) (r : PyObj)
    (h : f (toContainer theta nDims) (toContainer phi nDerived) = some r) :
    loglikelihood f theta nDims phi nDerived = some (asDoubleValue r, theta, phi) ∧
    (loglikelihood f theta nDims phi nDerived).isSome = true ∧
    (∀ fr : LikeFn, fr (toContainer theta nDims) (toContainer phi nDerived) = none →
      loglikelihood fr theta nDims phi nDerived = none) := by
  refine ⟨loglikelihood_of_ret f theta nDims phi nDerived r h, ?_, fun fr hf => ?_⟩
  · rw [loglikelihood_of_ret f theta nDims phi nDerived r h]; rfl
  · simp only [loglikelihood, hf]

/-- C2 witness: the amended statement at a callable returning the
non-convertible empty list. -/
theorem likelihood_bridge_no_validation_witness :
    loglikelihood fListW bufOne 1 bufZero 1 = some (asDoubleValue (PyObj.list []), bufOne, bufZero) :=
  (likelihood_bridge_no_validation fListW bufOne 1 bufZero 1 (PyObj.list []) rfl).1

/-- C4 counterexample: a callable returning the well-formed two-part
result (3.5, [1.0]): the bridge does not extract the scalar part; it runs
PyFloat_AsDouble on the whole tuple and returns the sentinel -1, which is
not the scalar part 3.5. -/
theorem likelihood_bridge_tuple_result_cex :
    loglikelihood fTupleW bufHalf 1 bufZero 1 = some (-1, bufHalf, bufZero) ∧
    (-1 : Rat) ≠ 7/2 :=
  ⟨rfl, by norm_num⟩

/-- C4 amended: the bridge invokes the callable once with the two
converted containers and returns the float conversion of the whole
returned object; in particular a bare scalar float v comes back as
exactly v, with both buffers unchanged. -/
theorem likelihood_bridge_returns_float_conversion (f : LikeFn) (theta : Buffer)
    (nDims : Nat) (phi : Buffer) (nDerived : Nat) (v : Rat)
    (h : f (toContainer theta nDims) (toContainer phi nDerived) = some (PyObj.float v)) :
    loglikelihood f theta nDims phi nDerived = some (v, theta, phi) := by
  rw [loglikelihood_of_ret f theta nDims phi nDerived _ h, asDoubleValue_float]

/-- C4 witness: a callable returning the bare scalar 1.5 makes the bridge
return exactly 1.5. -/
theorem likelihood_bridge_returns_float_conversion_witness :
    loglikelihood fScalarW bufOne 2 bufZero 1 = some (3/2, bufOne, bufZero) :=
  likelihood_bridge_returns_float_conversion fScalarW bufOne 2 bufZero 1 (3/2) rfl

/-- C6 counterexample: after a run from the clean initial state ends,
both registry slots still hold the callables of that run; the accessors
find them bound rather than failing NotBound. -/
theorem registry_not_released_cex :
    (currentLikelihood (run_PyPolyChord initRegistry (some argsFirst)).1).isSome = true ∧
    (currentPrior (run_PyPolyChord initRegistry (some argsFirst)).1).isSome = true :=
  ⟨rfl, rfl⟩

/-- C6 amended: run_PyPolyChord contains no release: when a run ends, the
registry holds exactly the callables bound for that run, and a failed
parse leaves the registry as it was; no path clears the slots. -/
theorem registry_retains_binding (st : Registry) (a : RunArgs) :
    currentLikelihood (run_PyPolyChord st (some a)).1 = some a.python_loglikelihood ∧
    currentPrior (run_PyPolyChord st (some a)).1 = some a.python_prior ∧
    (run_PyPolyChord st none).1 = st :=
  ⟨rfl, rfl, rfl⟩

/-- C7 counterexample: starting a second run while regBound is bound does
invoke the engine, and afterwards the likelihood slot answers like fTwo,
the callable of the second run, and no longer like fOne, the one bound
before. -/
theorem no_reentrancy_check_cex :
    ((run_PyPolyChord regBound (some argsSecond)).2.1).isSome = true ∧
    Option.map (fun f => f [] [])
        (currentLikelihood (run_PyPolyChord regBound (some argsSecond)).1)
      = some (some (PyObj.float 2)) ∧
    Option.map (fun f => f [] []) (currentLikelihood regBound)
      = some (some (PyObj.float 1)) ∧
    PyObj.float 2 ≠ PyObj.float 1 :=
  ⟨rfl, rfl, rfl, by simp⟩

/-- C7 amended: no reentrancy check exists: a run started while the
registry is bound proceeds, invokes the engine, and overwrites the
binding with the callables of the new run. -/
theorem second_run_overwrites_binding (f0 : LikeFn) (g0 : PriorFn) (a : RunArgs) :
    ((run_PyPolyChord { python_loglikelihood := some f0, python_prior := some g0 }
        (some a)).2.1).isSome = true ∧
    (run_PyPolyChord { python_loglikelihood := some f0, python_prior := some g0 }
        (some a)).1 =
      { python_loglikelihood := some a.python_loglikelihood,
        python_prior := some a.python_prior } :=
  ⟨rfl, rfl⟩

/-- C8 counterexample: a run with nDims = -1, nDerived = -1 and empty
path strings is not rejected: the engine is invoked and receives exactly
those values. -/
theorem no_value_validation_cex :
    (run_PyPolyChord initRegistry (some badArgs)).2.1 = some (engineCallOf badArgs) ∧
    (engineCallOf badArgs).nDims = -1 ∧
    (engineCallOf badArgs).nDerived = -1 ∧
    (engineCallOf badArgs).base_dir = "" ∧
    (engineCallOf badArgs).file_root = "" :=
  ⟨rfl, rfl, rfl, rfl, rfl⟩

/-- C8 amended: the entry point performs no value validation: the only
failure before the engine is a type or arity failure of PyArg_ParseTuple,
and on any successful parse -- whatever the dimensionalities or the path
strings -- the engine is invoked with the parsed scalars, forwarded
unmodified in the declared order. -/
theorem entry_point_forwards_args (st : Registry) (a : RunArgs) :
    (run_PyPolyChord st (some a)).2.1 = some (engineCallOf a) ∧
    (engineCallOf a).nDims = a.nDims ∧
    (engineCallOf a).nDerived = a.nDerived ∧
    (engineCallOf a).base_dir = a.base_dir ∧
    (engineCallOf a).file_root = a.file_root ∧
    run_PyPolyChord st none = (st, none, none) :=
  ⟨rfl, rfl, rfl, rfl, rfl, rfl⟩
